import Mathlib

/-!
Verification development for the LondonPropertyScrapper repository.

The Python source is shallowly embedded: page bodies are modelled after the
point where the HTML/JSON decoding layer (BeautifulSoup / json.loads / regex
marker search) has produced a structured value, with an explicit `Option` for
a missing embedded marker.  Python dictionaries are association lists, Python
runtime errors are an explicit error type threaded through `Except`, floats
are rationals, and the module-level logger is modelled as an explicit list of
(error kind, url) entries carried in the returned state.
-/

/-- Python runtime error kinds that the scraped code can raise or catch. -/
inductive PyErr where
  | keyError (k : String)
  | typeError
  | valueError
  | indexError
  | attributeError
  | timeoutExc
deriving DecidableEq, Repr

/-- Embedded Python values (dicts as association lists, floats as rationals,
`np.nan` as an explicit marker distinct from `None`, `False` and `0`). -/
inductive PyVal where
  | vNone
  | vNan
  | vBool (b : Bool)
  | vInt (n : Int)
  | vRat (q : ℚ)
  | vStr (s : String)
  | vList (xs : List PyVal)
  | vDict (xs : List (String × PyVal))

/-- A normalized listing record: the Python dict the normalizers build,
as an association list in the literal's key order. -/
def PropRec : Type := List (String × PyVal)

/-- Python `obj[key]` with a string key: a dict yields the value or raises
`KeyError`; indexing a string (or any non-dict) by a string raises
`TypeError`, exactly as `row['price']` does on a `str` in Zoopla
`parse_price`. -/
def dictGet (v : PyVal) (k : String) : Except PyErr PyVal :=
  match v with
  | .vDict xs =>
    match xs.lookup k with
    | some w => .ok w
    | none => .error (.keyError k)
  | _ => .error .typeError

/-- Python truthiness of an embedded value. -/
def pyTruthy (v : PyVal) : Bool :=
  match v with
  | .vNone => false
  | .vNan => true
  | .vBool b => b
  | .vInt n => n != 0
  | .vRat q => q != 0
  | .vStr s => s != ""
  | .vList xs => !xs.isEmpty
  | .vDict xs => !xs.isEmpty

/-- Python `value == "lit"`: true only for an equal string. -/
def pyEqStr (v : PyVal) (s : String) : Bool :=
  match v with
  | .vStr t => t == s
  | _ => false

/-- Python `value is None`. -/
def pyIsNone (v : PyVal) : Bool :=
  match v with
  | .vNone => true
  | _ => false

/-- Value of a list of decimal digit characters read left to right. -/
def digitsVal (cs : List Char) : Nat :=
  cs.foldl (fun a c => a * 10 + (c.toNat - 48)) 0

/-- `re.sub(r"[^\d\.]", "", s)` keeps exactly the digit and period characters. -/
def stripNonNumeric (cs : List Char) : List Char :=
  cs.filter (fun c => c.isDigit || c == '.')

/-- Spec-side value of "<digits>[.<digits>]" read as a decimal number. -/
def decValue (intD fracD : List Char) : ℚ :=
  (digitsVal intD : ℚ) + (digitsVal fracD : ℚ) / 10 ^ fracD.length

/-- Python `float(s)` restricted to the digit/period strings produced by
`stripNonNumeric`: at most one period, at least one digit, else ValueError. -/
def pyFloat (cs : List Char) : Except PyErr ℚ :=
  let ip := cs.takeWhile (fun c => c != '.')
  let rest := cs.dropWhile (fun c => c != '.')
  if ip.all Char.isDigit then
    match rest with
    | [] => if ip.isEmpty then .error .valueError else .ok (digitsVal ip)
    | _ :: fp =>
      if fp.all Char.isDigit ∧ (ip ≠ [] ∨ fp ≠ []) then .ok (decValue ip fp)
      else .error .valueError
  else .error .valueError

/-- Python `float(x)` on an embedded value, as used by
`float(row['price']['amount'])` in the Rightmove normalizer. -/
def pyFloatOfVal (v : PyVal) : Except PyErr ℚ :=
  match v with
  | .vInt n => .ok (n : ℚ)
  | .vRat q => .ok q
  | .vBool b => .ok (if b then 1 else 0)
  | .vStr s => pyFloat s.toList
  | _ => .error .typeError

/-- Worker for Python `s.split()`: accumulates the current word (reversed)
while scanning, splitting at whitespace runs and dropping empty pieces. -/
def pyWordsAux : List Char → List Char → List (List Char)
  | [], acc => if acc.isEmpty then [] else [acc.reverse]
  | c :: cs, acc =>
    if c.isWhitespace then
      if acc.isEmpty then pyWordsAux cs [] else acc.reverse :: pyWordsAux cs []
    else pyWordsAux cs (c :: acc)

/-- Python `s.split()` with no argument: split on whitespace runs. -/
def pyWords (cs : List Char) : List (List Char) :=
  pyWordsAux cs []

/-- Python async `gather` over already-started sub-computations whose failure
modes are exceptions: the collected results in order, or the first raised
exception.  Also models a plain Python `for` loop appending per-element
results, which stops at the first uncaught exception. -/
def gatherM {α : Type} : List (Except PyErr α) → Except PyErr (List α)
  | [] => .ok []
  | x :: xs =>
    match x with
    | .error e => .error e
    | .ok a => (gatherM xs).map (fun l => a :: l)

/-! ### utils/add_utils.py: the tenacity-decorated `fetch`

`@tenacity.retry(retry=retry_if_exception_type((TimeoutError,
ServerDisconnectedError)), wait=wait_fixed(5), stop=stop_after_attempt(5))`.
One attempt is one `session.get` + `response.text()`; an oracle gives each
attempt's outcome. -/

/-- Exceptions an individual fetch attempt can raise. -/
inductive PyNetExc where
  | timeoutError
  | serverDisconnected
  | otherExc (code : Nat)
deriving DecidableEq, Repr

/-- `retry_if_exception_type((asyncio.TimeoutError, ServerDisconnectedError))`. -/
def retryable (e : PyNetExc) : Bool :=
  match e with
  | .timeoutError => true
  | .serverDisconnected => true
  | .otherExc _ => false

/-- Outcome of a single fetch attempt, supplied by an oracle per attempt number. -/
inductive AttemptRes where
  | success (body : String)
  | failure (e : PyNetExc)
deriving DecidableEq, Repr

/-- Terminal outcome of the retry-wrapped `fetch`. -/
inductive FetchOutcome where
  | body (s : String)
  | raised (e : PyNetExc)
  | retriesExhausted
deriving DecidableEq, Repr

/-- Trace of one retry-wrapped `fetch` call: attempts consumed, the fixed
waits performed between attempts, and the terminal outcome. -/
structure RetryTrace where
  attemptsUsed : Nat
  waits : List Nat
  outcome : FetchOutcome
deriving DecidableEq, Repr

/-- The tenacity loop: attempt `n`, with `remaining` attempts allowed
including this one; `stop_after_attempt(5)` raises `RetryError` once the
budget is gone, `wait_fixed(5)` waits 5 units before each re-attempt. -/
def tenacityGo (f : Nat → AttemptRes) : Nat → Nat → RetryTrace
  | _, 0 => ⟨0, [], .retriesExhausted⟩
  | n, remaining + 1 =>
    match f n with
    | .success b => ⟨n, [], .body b⟩
    | .failure e =>
      if retryable e then
        if remaining = 0 then ⟨n, [], .retriesExhausted⟩
        else
          let t := tenacityGo f (n + 1) remaining
          ⟨t.attemptsUsed, 5 :: t.waits, t.outcome⟩
      else ⟨n, [], .raised e⟩

/-- The decorated `fetch`: up to 5 attempts starting at attempt 1. -/
def fetchModel (f : Nat → AttemptRes) : RetryTrace := tenacityGo f 1 5

/-- Attempts strictly before `k` all fail with a retryable exception. -/
def transientUpTo (f : Nat → AttemptRes) (k : Nat) : Prop :=
  ∀ j, 1 ≤ j → j < k → ∃ e, f j = .failure e ∧ retryable e = true

/-- What a call to the retry-wrapped `fetch` surfaces to a pagination walker:
the `RetryError` tenacity raises on exhaustion, the (defensively caught)
timeout, or any other uncaught exception. -/
inductive FetchExc where
  | retryError
  | timeoutError
  | pyExc (e : PyErr)
deriving DecidableEq, Repr

/-! ### rightmove_scraper/FetchData.py -/

/-- A fetched Rightmove search page, after HTML decoding: the
`span.searchHeader-resultCount` content if present, and the
`window.jsonModel` properties list if that marker is present. -/
structure RMBody where
  resultCount : Option Nat
  jsonModel : Option (List PyVal)

/-- `get_max_page` arithmetic: floor for more than 23 results else ceiling,
times the stride 24, capped at 42 pages. -/
def rmLastPage (count : Nat) : Nat :=
  let lastNum := if count > 23 then count / 24 else (count + 23) / 24
  if lastNum ≥ 42 then 42 * 24 else lastNum * 24

/-- `get_max_page`: raises ValueError when the result-count span is absent. -/
def rm_get_max_page (b : RMBody) : Except PyErr Nat :=
  match b.resultCount with
  | none => .error .valueError
  | some c => .ok (rmLastPage c)

/-- One row of `parse_data`: every key access of the source, in evaluation
order; a missing key raises `KeyError` out of the whole page parse.  The
source's dict literal repeats the key `featuredProperty`; the association
list keeps the single resulting entry. -/
def rm_parse_row (row : PyVal) : Except PyErr PropRec := do
  let ttV ← dictGet row "transactionType"
  let freq ← if pyEqStr ttV "rent" then do
      let p ← dictGet row "price"
      dictGet p "frequency"
    else pure PyVal.vNan
  let idV ← dictGet row "id"
  let bedV ← dictGet row "bedrooms"
  let bathV ← dictGet row "bathrooms"
  let sumV ← dictGet row "summary"
  let subV ← dictGet row "propertySubType"
  let featV ← dictGet row "featuredProperty"
  let priceD ← dictGet row "price"
  let amountV ← dictGet priceD "amount"
  let amount ← pyFloatOfVal amountV
  let curV ← dictGet priceD "currencyCode"
  let addrV ← dictGet row "displayAddress"
  let locV ← dictGet row "location"
  let latV ← dictGet locV "latitude"
  let lonV ← dictGet locV "longitude"
  let custV ← dictGet row "customer"
  let agentV ← dictGet custV "brandTradingName"
  let urlV ← dictGet row "propertyUrl"
  let urlS ← match urlV with
    | .vStr s => pure s
    | _ => throw PyErr.typeError
  let dateV ← dictGet row "firstVisibleDate"
  let comV ← dictGet row "commercial"
  let devV ← dictGet row "development"
  let resV ← dictGet row "residential"
  let stuV ← dictGet row "students"
  let sizeV ← dictGet row "displaySize"
  let shortV ← dictGet row "propertyTypeFullDescription"
  pure [("property_id", idV), ("transactionType", ttV), ("bedrooms", bedV),
    ("bathrooms", bathV), ("description", sumV), ("propertySubType", subV),
    ("featuredProperty", featV), ("price", PyVal.vRat amount),
    ("price_currency", curV), ("rent_freq", freq), ("displayAddress", addrV),
    ("latitude", latV), ("longitude", lonV), ("agent", agentV),
    ("listing_url", PyVal.vStr ("https://www.rightmove.co.uk" ++ urlS)),
    ("listing_source", PyVal.vStr "rightmove"), ("firstVisibleDate", dateV),
    ("commercial", comV), ("development", devV), ("residential", resV),
    ("students", stuV), ("displaySize", sizeV), ("short_desc", shortV)]

/-- The row loop of Rightmove `parse_data`: appends each parsed row; there is
no per-row exception handler, so the first bad row aborts the whole page. -/
def rm_parse_rows (rows : List PyVal) : Except PyErr (List PropRec) :=
  gatherM (rows.map rm_parse_row)

/-- `parse_data` on a page body: `re.search(r'window\.jsonModel = ...')`
returning no match raises AttributeError on `.group(1)`. -/
def rm_parse_data (b : RMBody) : Except PyErr (List PropRec) :=
  match b.jsonModel with
  | none => .error .attributeError
  | some rows => rm_parse_rows rows

/-- `outcode.replace('^', '%5E')`: percent-encode every caret. -/
def caretEncode (s : String) : String :=
  String.mk (s.toList.foldr
    (fun c acc => (if c = '^' then ['%', '5', 'E'] else [c]) ++ acc) [])

/-- The `search_url` f-string built before the page loop (index is the
page number it was built with; the code only ever builds it with 0). -/
def rmSearchUrl (outcode stype : String) (idx : Nat) : String :=
  "https://www.rightmove.co.uk/" ++ stype ++ "/find.html?locationIdentifier=" ++
    caretEncode outcode ++ "&index=" ++ toString idx ++ "&maxDaysSinceAdded=1"

/-- The URL actually requested inside the loop: the base url plus the
url-encoded `params` mapping with the current page index. -/
def rmRequestUrl (outcode stype : String) (idx : Nat) : String :=
  "https://www.rightmove.co.uk/" ++ stype ++ "/find.html?" ++
    "locationIdentifier=" ++ outcode ++ "&index=" ++ toString idx ++
    "&maxDaysSinceAdded=1"

/-- State threaded through `get_property_data`: collected records, the
logger's (error kind, url) entries, and the (search type, page index) of
every fetch request issued. -/
structure RMWalkSt where
  records : List PropRec
  log : List (String × String)
  fetched : List (String × Nat)

/-- The `while page_num <= last_page` loop of `get_property_data`, with the
enclosing `try/except asyncio.TimeoutError / tenacity.RetryError`.  Caught
exceptions log and end the loop keeping the state; exceptions from
`get_max_page` / `parse_data` are not caught and abort with the error.
`fuel` bounds the iteration count (page indexes step by 24 up to 1008, so
any fuel above 43 is never exhausted). -/
def rmLoop (oracle : Nat → Except FetchExc RMBody) (stype : String)
    (searchUrl : String) : Nat → Nat → Nat → RMWalkSt → Except PyErr RMWalkSt
  | 0, _, _, st => .ok st
  | fuel + 1, pageNum, lastPage, st =>
    if pageNum > lastPage then .ok st
    else
      let st1 : RMWalkSt := { st with fetched := st.fetched ++ [(stype, pageNum)] }
      match oracle pageNum with
      | .error .retryError =>
        .ok { st1 with log := st1.log ++ [("RetryError", searchUrl)] }
      | .error .timeoutError =>
        .ok { st1 with log := st1.log ++ [("TimeoutError", searchUrl)] }
      | .error (.pyExc e) => .error e
      | .ok body =>
        match (if pageNum = 0 then rm_get_max_page body else .ok lastPage) with
        | .error e => .error e
        | .ok lastPage1 =>
          if lastPage1 = 0 then .ok st1
          else
            match rm_parse_data body with
            | .error e => .error e
            | .ok recs =>
              rmLoop oracle stype searchUrl fuel (pageNum + 24) lastPage1
                { st1 with records := st1.records ++ recs }

/-- One region/kind walk of `get_property_data`, threading prior state
(`property_list` is shared across the two search types). -/
def rmWalkKindSt (oracle : Nat → Except FetchExc RMBody) (outcode stype : String)
    (st : RMWalkSt) : Except PyErr RMWalkSt :=
  rmLoop oracle stype (rmSearchUrl outcode stype 0) 64 0 (42 * 24) st

/-- A single region/kind walk started from the empty state. -/
def rmWalkKind (oracle : Nat → Except FetchExc RMBody) (outcode stype : String) :
    Except PyErr RMWalkSt :=
  rmWalkKindSt oracle outcode stype ⟨[], [], []⟩

/-- `get_property_data`: the for-sale walk then the to-rent walk over the
shared list; an uncaught exception in either aborts the coroutine. -/
def rmGetPropertyData (oracle : String → Nat → Except FetchExc RMBody)
    (outcode : String) : Except PyErr RMWalkSt := do
  let st1 ← rmWalkKindSt (oracle "property-for-sale") outcode "property-for-sale" ⟨[], [], []⟩
  rmWalkKindSt (oracle "property-to-rent") outcode "property-to-rent" st1

/-- `fetch_all_property_data`: gather the per-outcode coroutines (the first
uncaught exception propagates to the awaiter) and flatten the record lists. -/
def rm_fetch_all_property_data
    (oracle : String → String → Nat → Except FetchExc RMBody)
    (outcodeList : List String) : Except PyErr (List PropRec) :=
  (gatherM (outcodeList.map (fun oc => rmGetPropertyData (oracle oc) oc))).map
    (fun sts => (sts.map RMWalkSt.records).flatten)

/-! ### The admission gate of `fetch_all_property_data` /
`fetch_all_property_urls`

Both orchestrators run `sem = asyncio.Semaphore(30)` and then
`async with sem: tasks = (ensure_future(...) for ...)`: the semaphore is
acquired once, released once when the generator expression has been bound,
and the spawned tasks themselves never touch it.  The event trace records
gate operations and task starts in program order. -/

inductive GateEvent where
  | semAcquire
  | semRelease
  | taskFetchStart (url : String)
deriving DecidableEq, Repr

/-- Event trace of one orchestrator session over the given task list. -/
def sessionGateEvents (urls : List String) : List GateEvent :=
  [GateEvent.semAcquire, GateEvent.semRelease] ++ urls.map GateEvent.taskFetchStart

/-- Number of semaphore acquisitions in a trace. -/
def semAcquireCount (es : List GateEvent) : Nat :=
  es.countP (fun e => decide (e = GateEvent.semAcquire))

/-- A 100-task workload, as in the spec's admission-gate property. -/
def urls100 : List String :=
  (List.range 100).map (fun n => "https://example.org/search/" ++ toString n)

/-! ### onthemarket_scraper/FetchPropertyLinks.py -/

/-- The per-page search URL `get_zc_property_urls` builds each iteration. -/
def otmSearchUrl (stype zipcode : String) (page : Nat) : String :=
  "https://www.onthemarket.com/" ++ stype ++ "/property/" ++ zipcode ++
    "/?page=" ++ toString page ++ "&recently-added=24-hours&view=grid"

/-- Python `"property-link" in rows` for a list: membership compares the
string against each element (a dict never equals a string). -/
def isMarkerStr (v : PyVal) : Bool := pyEqStr v "property-link"

/-- The `for row in rows` loop: `row["property-link"]` appended with the site
prefix; `except KeyError` logs (error kind, search url) and skips the row;
any other exception (e.g. TypeError from a non-dict row or a non-string
link) is uncaught. -/
def otm_collect (searchUrl : String) :
    List PyVal → Except PyErr (List String × List (String × String))
  | [] => .ok ([], [])
  | r :: rest =>
    match dictGet r "property-link" with
    | .ok (.vStr s) =>
      (otm_collect searchUrl rest).map
        (fun p => (("https://www.onthemarket.com" ++ s) :: p.1, p.2))
    | .ok _ => .error .typeError
    | .error (.keyError _) =>
      (otm_collect searchUrl rest).map
        (fun p => (p.1, ("KeyError", searchUrl) :: p.2))
    | .error e => .error e

/-- The row-collection block of one page: nothing when the page is empty;
a lone row is discarded as an advertisement whenever the list does not
contain the literal string "property-link" (the source tests membership in
the list, not in the row). -/
def otm_process_rows (searchUrl : String) (rows : List PyVal) :
    Except PyErr (List String × List (String × String)) :=
  if rows.length ≠ 0 then
    if rows.length = 1 ∧ ¬ rows.any isMarkerStr then .ok ([], [])
    else otm_collect searchUrl rows
  else .ok ([], [])

/-- State of `get_zc_property_urls`: collected urls, log entries, and the
(search type, page index) of every fetch issued. -/
structure OTMLinksSt where
  urls : List String
  log : List (String × String)
  fetched : List (String × Nat)

/-- One search type of `get_zc_property_urls`.  The `while True:` body ends
with an unconditional `break`, so it executes exactly once, always with
`page_num = 0`; the oracle yields the decoded `__OTM__.jsonData` properties
list (`none` when the marker is missing, which raises AttributeError on
`.group(1)`, uncaught since only `tenacity.RetryError` is handled). -/
def otm_links_one_type (oracle : String → Nat → Except FetchExc (Option (List PyVal)))
    (zipcode stype : String) (st : OTMLinksSt) : Except PyErr OTMLinksSt :=
  let url := otmSearchUrl stype zipcode 0
  let st1 : OTMLinksSt := { st with fetched := st.fetched ++ [(stype, 0)] }
  match oracle stype 0 with
  | .error .retryError => .ok { st1 with log := st1.log ++ [("RetryError", url)] }
  | .error .timeoutError => .error .timeoutExc
  | .error (.pyExc e) => .error e
  | .ok none => .error .attributeError
  | .ok (some rows) =>
    match otm_process_rows url rows with
    | .error e => .error e
    | .ok (us, lg) => .ok { st1 with urls := st1.urls ++ us, log := st1.log ++ lg }

/-- `get_zc_property_urls`: the for-sale pass then the to-rent pass. -/
def otm_get_zc_property_urls
    (oracle : String → Nat → Except FetchExc (Option (List PyVal)))
    (zipcode : String) : Except PyErr OTMLinksSt := do
  let st1 ← otm_links_one_type oracle zipcode "for-sale" ⟨[], [], []⟩
  otm_links_one_type oracle zipcode "to-rent" st1

/-! ### onthemarket_scraper/FetchPropertyData.py -/

/-- `re.sub(r'<.*?>', ' ', s)`: each shortest `<...>` span becomes a single
space; a `<` with no later `>` leaves the remainder unchanged.  Fuel is the
input length (at least one character is consumed per step). -/
def stripTagsGo : Nat → List Char → List Char
  | 0, cs => cs
  | _ + 1, [] => []
  | fuel + 1, c :: rest =>
    if c = '<' then
      match rest.dropWhile (fun x => x != '>') with
      | _ :: after => ' ' :: stripTagsGo fuel after
      | [] => c :: rest
    else c :: stripTagsGo fuel rest

/-- Tag removal over a whole character list. -/
def stripTags (cs : List Char) : List Char := stripTagsGo cs.length cs

/-- `parse_description`: strip markup from `description`, append the
comma-joined `features` list, then collapse whitespace runs
(`re.sub(r'\s+', ' ', full_desc.strip())`). -/
def otm_parse_description (jsonData : PyVal) : Except PyErr String := do
  let descV ← dictGet jsonData "description"
  let descS ← match descV with
    | .vStr s => pure s
    | _ => throw PyErr.typeError
  let featuresV ← dictGet jsonData "features"
  let featL ← match featuresV with
    | .vList l => pure l
    | _ => throw PyErr.typeError
  let feats ← gatherM (featL.map (fun d => do
    let fV ← dictGet d "feature"
    match fV with
    | .vStr s => pure s
    | _ => throw PyErr.typeError))
  let desc := String.mk (stripTags descS.toList)
  let fullDesc := desc ++ " " ++ String.intercalate ", " feats
  pure (String.intercalate " " ((pyWords fullDesc.toList).map String.mk))

/-- `parse_displaySize`: `minimum-area` with `except KeyError` giving nan. -/
def otm_parse_displaySize (jsonData : PyVal) : Except PyErr PyVal :=
  match dictGet jsonData "minimum-area" with
  | .ok v => .ok v
  | .error (.keyError _) => .ok .vNan
  | .error e => .error e

/-- Result of OnTheMarket `parse_price`: numeric amount, the leading
character of the raw text, and the rent frequency (`none` models np.nan). -/
structure PriceTriple where
  price : ℚ
  currency : Char
  freq : Option String
deriving DecidableEq, Repr

/-- OnTheMarket `parse_price`: the raw text is `json_data['price']`; the
price comes from the whole text for sales and from the first
whitespace-separated token for rentals, stripped to digits and periods; the
currency is `text[0]`; the rent frequency is `text.split()[1]`. -/
def otm_parse_price (jsonData : PyVal) : Except PyErr PriceTriple := do
  let textV ← dictGet jsonData "price"
  let text ← match textV with
    | .vStr s => pure s
    | _ => throw PyErr.typeError
  let forSaleV ← dictGet jsonData "for-sale?"
  let forSale := pyTruthy forSaleV
  let priceText ← if forSale then pure text.toList
    else match pyWords text.toList with
      | [] => throw PyErr.indexError
      | w :: _ => pure w
  let amount ← pyFloat (stripNonNumeric priceText)
  let cur ← match text.toList with
    | [] => throw PyErr.indexError
    | c :: _ => pure c
  let freq ← if forSale then pure (none : Option String)
    else match pyWords text.toList with
      | _ :: w2 :: _ => pure (some (String.mk w2))
      | _ => throw PyErr.indexError
  pure ⟨amount, cur, freq⟩

/-- `parse_property_data` on the decoded `__OTM__.jsonData` document
(`none` when the marker is missing: `.group(1)` on `None` raises
AttributeError).  `today` is the scrape date `datetime.today()` returns. -/
def otm_parse_property_data (today : String) (doc : Option PyVal) :
    Except PyErr PropRec :=
  match doc with
  | none => .error .attributeError
  | some jsonData => do
    let idV ← dictGet jsonData "id"
    let fsV ← dictGet jsonData "for-sale?"
    let tt := if pyTruthy fsV then "buy" else "rent"
    let bedV ← dictGet jsonData "bedrooms"
    let bathV ← dictGet jsonData "bathrooms"
    let desc ← otm_parse_description jsonData
    let subV ← dictGet jsonData "humanised-property-type"
    let p1 ← otm_parse_price jsonData
    let p2 ← otm_parse_price jsonData
    let p3 ← otm_parse_price jsonData
    let addrV ← dictGet jsonData "display_address"
    let locV ← dictGet jsonData "location"
    let latV ← dictGet locV "lat"
    let lonV ← dictGet locV "lon"
    let agV ← dictGet jsonData "agent"
    let agentV ← dictGet agV "company_name"
    let urlV ← dictGet jsonData "canonical-url"
    let comV ← dictGet jsonData "commercial?"
    let devV ← dictGet jsonData "development-property?"
    let stuV ← dictGet jsonData "student?"
    let sizeV ← otm_parse_displaySize jsonData
    let titleV ← dictGet jsonData "property-title"
    pure [("property_id", idV), ("transactionType", PyVal.vStr tt),
      ("bedrooms", bedV), ("bathrooms", bathV),
      ("description", PyVal.vStr desc), ("propertySubType", subV),
      ("featuredProperty", PyVal.vNan), ("price", PyVal.vRat p1.price),
      ("price_currency", PyVal.vStr (String.mk [p2.currency])),
      ("rent_freq", match p3.freq with
        | some s => PyVal.vStr s
        | none => PyVal.vNan),
      ("displayAddress", addrV), ("latitude", latV), ("longitude", lonV),
      ("agent", agentV), ("listing_url", urlV),
      ("listing_source", PyVal.vStr "OnTheMarket"),
      ("firstVisibleDate", PyVal.vStr today), ("commercial", comV),
      ("development", devV), ("residential", PyVal.vNan), ("students", stuV),
      ("displaySize", sizeV), ("short_desc", titleV)]

/-- `get_property_data` of FetchPropertyData.py: `except tenacity.RetryError`
logs and falls off the end of the function, returning Python `None`; every
other exception (including parse errors) is uncaught. -/
def otm_pd_get (fetchRes : Except FetchExc (Option PyVal)) (today : String) :
    Except PyErr (Option PropRec) :=
  match fetchRes with
  | .ok doc => (otm_parse_property_data today doc).map some
  | .error .retryError => .ok none
  | .error .timeoutError => .error .timeoutExc
  | .error (.pyExc e) => .error e

/-- `fetch_all_property_data` of FetchPropertyData.py: gather the per-url
coroutines in input order and return the list of their results. -/
def otm_pd_fetch_all (oracle : String → Except FetchExc (Option PyVal))
    (today : String) (propertyUrls : List String) :
    Except PyErr (List (Option PropRec)) :=
  gatherM (propertyUrls.map (fun u => otm_pd_get (oracle u) today))

/-! ### zoopla_scraper/FetchData.py -/

/-- The comprehension `[d for d in dict_key if d['iconId'] == icon]`:
a row without `iconId` raises KeyError out of the comprehension. -/
def zp_icon_filter (ds : List PyVal) (icon : String) : Except PyErr (List PyVal) :=
  match ds with
  | [] => .ok []
  | d :: rest => do
    let v ← dictGet d "iconId"
    let tail ← zp_icon_filter rest icon
    pure (if pyEqStr v icon then d :: tail else tail)

/-- The `try` body of `total_bad_and_bath`: bed list, `[0]["content"]`,
then bath list, `[0]["content"]`. -/
def zp_bed_bath_try (ds : List PyVal) : Except PyErr (PyVal × PyVal) := do
  let beds ← zp_icon_filter ds "bed"
  match beds with
  | [] => throw PyErr.indexError
  | b :: _ => do
    let bc ← dictGet b "content"
    let baths ← zp_icon_filter ds "bath"
    match baths with
    | [] => throw PyErr.indexError
    | a :: _ => do
      let ac ← dictGet a "content"
      pure (bc, ac)

/-- `total_bad_and_bath`: `except IndexError` yields the nan/nan dict;
KeyError and TypeError are uncaught. -/
def zp_bed_bath (features : PyVal) : Except PyErr (PyVal × PyVal) :=
  match features with
  | .vList ds =>
    match zp_bed_bath_try ds with
    | .error .indexError => .ok (.vNan, .vNan)
    | r => r
  | _ => .error .typeError

/-- Result of Zoopla `parse_price` (`none` components model np.nan). -/
structure ZPriceTriple where
  price : Option ℚ
  currency : Option Char
  freq : Option String
deriving DecidableEq, Repr

/-- Zoopla `parse_price`: `row` is the raw price string.  The try block
computes `float(re.sub(...))`, `row[0]`, and for rentals
`row['price'].split()[-1]` — indexing the string `row` with the string
`'price'`, a TypeError; only ValueError is caught. -/
def zp_parse_price (row : String) (forSale : Bool) : Except PyErr ZPriceTriple :=
  match pyFloat (stripNonNumeric row.toList) with
  | .error .valueError => .ok ⟨none, none, none⟩
  | .error e => .error e
  | .ok p =>
    match row.toList with
    | [] => .error .indexError
    | c :: _ =>
      if forSale then .ok ⟨some p, some c, none⟩
      else
        match dictGet (.vStr row) "price" with
        | .error .valueError => .ok ⟨none, none, none⟩
        | .error e => .error e
        | .ok v =>
          match v with
          | .vStr s =>
            match (pyWords s.toList).getLast? with
            | some w => .ok ⟨some p, some c, some (String.mk w)⟩
            | none => .error .indexError
          | _ => .error .attributeError

/-- Embed an optional rational / char / string as the Python value the
Zoopla dict literal stores (value or np.nan). -/
def zpOptRat (q : Option ℚ) : PyVal :=
  match q with
  | some x => .vRat x
  | none => .vNan

def zpOptChar (c : Option Char) : PyVal :=
  match c with
  | some x => .vStr (String.mk [x])
  | none => .vNan

def zpOptStr (s : Option String) : PyVal :=
  match s with
  | some x => .vStr x
  | none => .vNan

/-- One row of Zoopla `parse_data`, every access in evaluation order;
no per-row handler exists, so the first failing row aborts the page. -/
def zp_parse_row (forSale : Bool) (row : PyVal) : Except PyErr PropRec := do
  let pid ← dictGet row "listingId"
  let featuresV ← dictGet row "features"
  let bb1 ← zp_bed_bath featuresV
  let featuresV2 ← dictGet row "features"
  let bb2 ← zp_bed_bath featuresV2
  let descV ← dictGet row "summaryDescription"
  let subV ← dictGet row "propertyType"
  let ftV ← dictGet row "featuredType"
  let priceV ← dictGet row "price"
  let priceS ← match priceV with
    | .vStr s => pure s
    | _ => throw PyErr.typeError
  let pp1 ← zp_parse_price priceS forSale
  let pp2 ← zp_parse_price priceS forSale
  let pp3 ← zp_parse_price priceS forSale
  let addrV ← dictGet row "address"
  let locV ← dictGet row "location"
  let coordV ← dictGet locV "coordinates"
  let latV ← dictGet coordV "latitude"
  let lonV ← dictGet coordV "longitude"
  let brV ← dictGet row "branch"
  let agentV ← dictGet brV "name"
  let luV ← dictGet row "listingUris"
  let detV ← dictGet luV "detail"
  let detS ← match detV with
    | .vStr s => pure s
    | _ => throw PyErr.typeError
  let pubV ← dictGet row "publishedOn"
  let titleV ← dictGet row "title"
  pure [("property_id", pid),
    ("transactionType", PyVal.vStr (if forSale then "buy" else "rent")),
    ("bedrooms", bb1.1), ("bathrooms", bb2.2), ("description", descV),
    ("propertySubType", subV),
    ("featuredProperty", PyVal.vBool (!(pyIsNone ftV))),
    ("price", zpOptRat pp1.price), ("price_currency", zpOptChar pp2.currency),
    ("rent_freq", zpOptStr pp3.freq), ("displayAddress", addrV),
    ("latitude", latV), ("longitude", lonV), ("agent", agentV),
    ("listing_url", PyVal.vStr ("https://www.zoopla.co.uk/" ++ detS)),
    ("listing_source", PyVal.vStr "zoopla"), ("firstVisibleDate", pubV),
    ("commercial", PyVal.vNan), ("development", PyVal.vNan),
    ("residential", PyVal.vNan), ("students", PyVal.vNan),
    ("displaySize", PyVal.vNan), ("short_desc", titleV)]

/-- Zoopla `parse_data` over a page's listing rows. -/
def zp_parse_data (rows : List PyVal) (forSale : Bool) :
    Except PyErr (List PropRec) :=
  gatherM (rows.map (zp_parse_row forSale))

/-! ### Concrete fixtures used by the closed theorems -/

/-- A complete, well-formed Rightmove listing row. -/
def rmGoodRow : PyVal := .vDict [
  ("transactionType", .vStr "buy"), ("id", .vInt 101),
  ("bedrooms", .vInt 2), ("bathrooms", .vInt 1),
  ("summary", .vStr "A nice flat"), ("propertySubType", .vStr "Flat"),
  ("featuredProperty", .vBool false),
  ("price", .vDict [("amount", .vInt 450000), ("currencyCode", .vStr "GBP"),
    ("frequency", .vStr "not specified")]),
  ("displayAddress", .vStr "1 Example Road"),
  ("location", .vDict [("latitude", .vRat 51), ("longitude", .vRat 0)]),
  ("customer", .vDict [("brandTradingName", .vStr "Agent and Co")]),
  ("propertyUrl", .vStr "/properties/101"),
  ("firstVisibleDate", .vStr "2023-01-01"),
  ("commercial", .vBool false), ("development", .vBool false),
  ("residential", .vBool true), ("students", .vBool false),
  ("displaySize", .vStr ""),
  ("propertyTypeFullDescription", .vStr "2 bedroom flat for sale")]

/-- A malformed Rightmove row: the required key `id` is missing. -/
def rmBadRow : PyVal := .vDict [("transactionType", .vStr "buy")]

/-- Fetch oracle for a Rightmove walk whose every page reports a total
result count of 10 and an empty properties list. -/
def rmOracle10 : Nat → Except FetchExc RMBody :=
  fun _ => .ok ⟨some 10, some []⟩

/-- Fetch oracle for the pipeline-abort scenario: outcode E1 serves pages
whose result-count span is missing; outcode E2 serves well-formed pages
reporting zero results. -/
def rmOracleC7 : String → String → Nat → Except FetchExc RMBody :=
  fun oc _ _ => if oc = "E1" then .ok ⟨none, some []⟩ else .ok ⟨some 0, some []⟩

/-- Fetch oracle for the partial-result scenario: page 0 succeeds with 30
results and one row, every later page exhausts its retries. -/
def rmOracleC8 : Nat → Except FetchExc RMBody :=
  fun i => if i = 0 then .ok ⟨some 30, some [rmGoodRow]⟩ else .error .retryError

/-- Two well-formed OnTheMarket search-result rows and one follow-up row. -/
def otmRowA : PyVal := .vDict [("property-link", .vStr "/details/11")]

def otmRowB : PyVal := .vDict [("property-link", .vStr "/details/12")]

def otmRowC : PyVal := .vDict [("property-link", .vStr "/details/13")]

/-- Fetch oracle for the OnTheMarket pagination scenario: for-sale page 0
has two rows, for-sale page 1 has one more row, to-rent pages are empty. -/
def otmOracleC4 : String → Nat → Except FetchExc (Option (List PyVal)) :=
  fun stype page =>
    if stype = "for-sale" then
      if page = 0 then .ok (some [otmRowA, otmRowB])
      else if page = 1 then .ok (some [otmRowC])
      else .ok (some [])
    else .ok (some [])

/-- A complete, well-formed Zoopla rental listing row with price text
"£950 pcm". -/
def zpRentRow : PyVal := .vDict [
  ("listingId", .vInt 7),
  ("features", .vList [
    .vDict [("iconId", .vStr "bed"), ("content", .vInt 2)],
    .vDict [("iconId", .vStr "bath"), ("content", .vInt 1)]]),
  ("summaryDescription", .vStr "A nice flat"),
  ("propertyType", .vStr "flat"),
  ("featuredType", .vNone),
  ("price", .vStr "£950 pcm"),
  ("address", .vStr "2 Example Road"),
  ("location", .vDict [("coordinates",
    .vDict [("latitude", .vRat 51), ("longitude", .vRat 0)])]),
  ("branch", .vDict [("name", .vStr "Agent and Co")]),
  ("listingUris", .vDict [("detail", .vStr "to-rent/details/7")]),
  ("publishedOn", .vStr "2023-01-02"),
  ("title", .vStr "2 bed flat")]

/-- Attempt oracle whose first attempt times out and whose second succeeds. -/
def attemptsOnceTransient : Nat → AttemptRes :=
  fun n => if n = 1 then .failure .timeoutError else .success "page-body"

/-! ### Auxiliary lemmas about the embedded string primitives -/

theorem digit_not_ws (c : Char) (h : c.isDigit = true) : c.isWhitespace = false := by
  simp only [Char.isDigit, decide_eq_true_eq, Bool.and_eq_true] at h
  have hne : ∀ d : Char, d.val < 48 → decide (c = d) = false := by
    intro d hd
    rw [decide_eq_false_iff_not]
    intro he
    rw [he] at h
    have h1 := h.1
    simp [UInt32.le_def, UInt32.lt_def, BitVec.le_def, BitVec.lt_def] at h1 hd
    omega
  simp only [Char.isWhitespace]
  rw [hne ' ' (by decide), hne '\t' (by decide), hne '\x0d' (by decide),
    hne '\n' (by decide)]
  rfl

theorem digit_ne_dot (c : Char) (h : c.isDigit = true) : (c != '.') = true := by
  rcases eq_or_ne c '.' with rfl | hne
  · exact absurd h (by decide)
  · simp [bne_iff_ne, hne]

theorem pyWordsAux_push (c : Char) (cs : List Char) (acc : List Char)
    (h : c.isWhitespace = false) :
    pyWordsAux (c :: cs) acc = pyWordsAux cs (c :: acc) := by
  simp [pyWordsAux, h]

theorem pyWordsAux_no_ws (b : List Char) :
    ∀ acc : List Char, (∀ c ∈ b, c.isWhitespace = false) → acc.reverse ++ b ≠ [] →
    pyWordsAux b acc = [acc.reverse ++ b] := by
  induction b with
  | nil =>
    intro acc _ hne
    simp only [List.append_nil] at hne
    have hacc : acc ≠ [] := by
      intro h
      exact hne (by simp [h])
    simp [pyWordsAux, List.isEmpty_iff, hacc]
  | cons c cs ih =>
    intro acc hws _
    rw [pyWordsAux_push c cs acc (hws c (by simp))]
    rw [ih (c :: acc) (fun x hx => hws x (by simp [hx])) (by simp)]
    simp

theorem pyWordsAux_word_space (a : List Char) (b : List Char) :
    ∀ acc : List Char, (∀ c ∈ a, c.isWhitespace = false) → acc.reverse ++ a ≠ [] →
    pyWordsAux (a ++ ' ' :: b) acc = (acc.reverse ++ a) :: pyWordsAux b [] := by
  induction a with
  | nil =>
    intro acc _ hne
    simp only [List.append_nil] at hne
    have hacc : acc.isEmpty = false := by
      rcases acc with _ | ⟨x, xs⟩
      · simp at hne
      · simp [List.isEmpty]
    simp [pyWordsAux, hacc]
  | cons c cs ih =>
    intro acc hws _
    have hc : c.isWhitespace = false := hws c (by simp)
    rw [List.cons_append, pyWordsAux_push c (cs ++ ' ' :: b) acc hc]
    rw [ih (c :: acc) (fun x hx => hws x (by simp [hx])) (by simp)]
    simp

/-- Python `s.split()` of "<word> <word>" with non-whitespace, nonempty words. -/
theorem pyWords_two_words (a b : List Char)
    (ha : ∀ c ∈ a, c.isWhitespace = false) (hb : ∀ c ∈ b, c.isWhitespace = false)
    (hane : a ≠ []) (hbne : b ≠ []) :
    pyWords (a ++ ' ' :: b) = [a, b] := by
  unfold pyWords
  rw [pyWordsAux_word_space a b [] ha (by simpa using hane)]
  rw [pyWordsAux_no_ws b [] hb (by simpa using hbne)]
  simp

theorem takeWhile_all_append (p : Char → Bool) (a b : List Char)
    (h : ∀ c ∈ a, p c = true) :
    (a ++ b).takeWhile p = a ++ b.takeWhile p := by
  induction a with
  | nil => simp
  | cons c cs ih =>
    simp only [List.cons_append, List.takeWhile_cons, h c (by simp)]
    rw [ih (fun x hx => h x (by simp [hx]))]
    simp

theorem dropWhile_all_append (p : Char → Bool) (a b : List Char)
    (h : ∀ c ∈ a, p c = true) :
    (a ++ b).dropWhile p = b.dropWhile p := by
  induction a with
  | nil => simp
  | cons c cs ih =>
    simp only [List.cons_append, List.dropWhile_cons, h c (by simp)]
    exact ih (fun x hx => h x (by simp [hx]))

theorem pyFloat_digits (ds : List Char) (h : ∀ c ∈ ds, c.isDigit = true)
    (hne : ds ≠ []) : pyFloat ds = .ok (digitsVal ds) := by
  have htw : ds.takeWhile (fun c => c != '.') = ds := by
    have := takeWhile_all_append (fun c => c != '.') ds []
      (fun c hc => digit_ne_dot c (h c hc))
    simpa using this
  have hdw : ds.dropWhile (fun c => c != '.') = [] := by
    have := dropWhile_all_append (fun c => c != '.') ds []
      (fun c hc => digit_ne_dot c (h c hc))
    simpa using this
  unfold pyFloat
  simp only [htw, hdw]
  rw [if_pos (by simpa [List.all_eq_true] using h)]
  simp [List.isEmpty_iff, hne]

theorem pyFloat_digits_frac (intD fracD : List Char)
    (hi : ∀ c ∈ intD, c.isDigit = true) (hf : ∀ c ∈ fracD, c.isDigit = true)
    (hne : intD ≠ [] ∨ fracD ≠ []) :
    pyFloat (intD ++ '.' :: fracD) = .ok (decValue intD fracD) := by
  have htw : (intD ++ '.' :: fracD).takeWhile (fun c => c != '.') = intD := by
    rw [takeWhile_all_append (fun c => c != '.') intD ('.' :: fracD)
      (fun c hc => digit_ne_dot c (hi c hc))]
    simp [List.takeWhile_cons]
  have hdw : (intD ++ '.' :: fracD).dropWhile (fun c => c != '.') = '.' :: fracD := by
    rw [dropWhile_all_append (fun c => c != '.') intD ('.' :: fracD)
      (fun c hc => digit_ne_dot c (hi c hc))]
    simp [List.dropWhile_cons]
  unfold pyFloat
  simp only [htw, hdw]
  rw [if_pos (by simpa [List.all_eq_true] using hi)]
  rw [if_pos ⟨by simpa [List.all_eq_true] using hf, hne⟩]

/-! ### The retry policy of the tenacity-decorated fetch -/

theorem tenacityGo_success (f : Nat → AttemptRes) (n rem : Nat) (b : String)
    (hf : f n = .success b) : tenacityGo f n (rem + 1) = ⟨n, [], .body b⟩ := by
  simp [tenacityGo, hf]

theorem tenacityGo_fatal (f : Nat → AttemptRes) (n rem : Nat) (e : PyNetExc)
    (hf : f n = .failure e) (hr : retryable e = false) :
    tenacityGo f n (rem + 1) = ⟨n, [], .raised e⟩ := by
  simp [tenacityGo, hf, hr]

theorem tenacityGo_exhaust (f : Nat → AttemptRes) (n : Nat) (e : PyNetExc)
    (hf : f n = .failure e) (hr : retryable e = true) :
    tenacityGo f n 1 = ⟨n, [], .retriesExhausted⟩ := by
  simp [tenacityGo, hf, hr]

theorem tenacityGo_step (f : Nat → AttemptRes) (n rem : Nat) (e : PyNetExc)
    (hf : f n = .failure e) (hr : retryable e = true) (hrem : rem ≠ 0) :
    tenacityGo f n (rem + 1) =
      ⟨(tenacityGo f (n + 1) rem).attemptsUsed,
       5 :: (tenacityGo f (n + 1) rem).waits,
       (tenacityGo f (n + 1) rem).outcome⟩ := by
  simp [tenacityGo, hf, hr, hrem]

theorem tenacityGo_reach (f : Nat → AttemptRes) :
    ∀ (d n rem : Nat),
    (∀ j, n ≤ j → j < n + d → ∃ e, f j = .failure e ∧ retryable e = true) →
    d < rem →
    tenacityGo f n rem =
      ⟨(tenacityGo f (n + d) (rem - d)).attemptsUsed,
       List.replicate d 5 ++ (tenacityGo f (n + d) (rem - d)).waits,
       (tenacityGo f (n + d) (rem - d)).outcome⟩ := by
  intro d
  induction d with
  | zero =>
    intro n rem _ _
    simp
  | succ d ih =>
    intro n rem ht hd
    obtain ⟨rem1, rfl⟩ : ∃ r, rem = r + 1 := ⟨rem - 1, by omega⟩
    obtain ⟨e, hfe, hre⟩ := ht n (le_refl n) (by omega)
    rw [tenacityGo_step f n rem1 e hfe hre (by omega)]
    rw [ih (n + 1) rem1 (fun j h1 h2 => ht j (by omega) (by omega)) (by omega)]
    have harith : n + (d + 1) = n + 1 + d := by omega
    have harith2 : rem1 + 1 - (d + 1) = rem1 - d := by omega
    rw [harith, harith2, List.replicate_succ]
    rfl

/-- Claim C2: the fetch retries exactly the transient failure kinds
(connection timeout and server disconnect) with a fixed wait of 5 between
attempts for at most 5 attempts total; exhausting the attempts surfaces the
retries-exhausted error, and every non-transient failure propagates
immediately at its first occurrence without further attempts or waits. -/
theorem fetch_retry_policy (f : Nat → AttemptRes) :
    (∀ k, 1 ≤ k → k ≤ 5 → transientUpTo f k →
      (∀ b, f k = .success b →
        fetchModel f = ⟨k, List.replicate (k - 1) 5, .body b⟩) ∧
      (∀ e, f k = .failure e → retryable e = false →
        fetchModel f = ⟨k, List.replicate (k - 1) 5, .raised e⟩)) ∧
    (transientUpTo f 6 →
      fetchModel f = ⟨5, List.replicate 4 5, .retriesExhausted⟩) := by
  constructor
  · intro k hk1 hk5 ht
    have hreach := tenacityGo_reach f (k - 1) 1 5
      (fun j h1 h2 => ht j h1 (by omega)) (by omega)
    have h1k : 1 + (k - 1) = k := by omega
    have h5k : 5 - (k - 1) = (5 - k) + 1 := by omega
    rw [h1k, h5k] at hreach
    constructor
    · intro b hb
      rw [fetchModel, hreach, tenacityGo_success f k (5 - k) b hb]
      simp
    · intro e he hre
      rw [fetchModel, hreach, tenacityGo_fatal f k (5 - k) e he hre]
      simp
  · intro ht
    have hreach := tenacityGo_reach f 4 1 5
      (fun j h1 h2 => ht j h1 (by omega)) (by omega)
    obtain ⟨e, hfe, hre⟩ := ht 5 (by omega) (by omega)
    norm_num at hreach
    rw [tenacityGo_exhaust f 5 e hfe hre] at hreach
    rw [fetchModel, hreach]
    simp

/-- Witness for C2: with a first attempt timing out and a second attempt
succeeding, the fetch uses 2 attempts, one fixed wait of 5, and returns
the body. -/
theorem fetch_retry_policy_witness :
    fetchModel attemptsOnceTransient = ⟨2, List.replicate 1 5, .body "page-body"⟩ :=
  ((fetch_retry_policy attemptsOnceTransient).1 2 (by omega) (by omega)
    (fun j h1 h2 => by
      interval_cases j
      exact ⟨PyNetExc.timeoutError, rfl, rfl⟩)).1 "page-body" rfl

/-! ### Price text parsing -/

theorem toList_mk (l : List Char) : (String.mk l).toList = l := rfl

theorem decValue_nil (ds : List Char) : decValue ds [] = (digitsVal ds : ℚ) := by
  simp [decValue, digitsVal]

theorem except_bind_ok {α β : Type} (a : α) (f : α → Except PyErr β) :
    (Except.ok a >>= f : Except PyErr β) = f a := rfl

theorem except_pure {α : Type} (a : α) : (pure a : Except PyErr α) = .ok a := rfl

theorem strip_cons_neg (c : Char) (cs : List Char)
    (h : (c.isDigit || c == '.') = false) :
    stripNonNumeric (c :: cs) = stripNonNumeric cs := by
  simp [stripNonNumeric, List.filter_cons, h]

theorem strip_all_pos (cs : List Char)
    (h : ∀ c ∈ cs, (c.isDigit || c == '.') = true) :
    stripNonNumeric cs = cs := by
  unfold stripNonNumeric
  induction cs with
  | nil => rfl
  | cons c cs ih =>
    rw [List.filter_cons, h c (by simp)]
    simp only [if_true]
    rw [ih (fun x hx => h x (by simp [hx]))]

theorem strip_all_neg (cs : List Char)
    (h : ∀ c ∈ cs, (c.isDigit || c == '.') = false) :
    stripNonNumeric cs = [] := by
  unfold stripNonNumeric
  induction cs with
  | nil => rfl
  | cons c cs ih =>
    rw [List.filter_cons, h c (by simp)]
    simp only [Bool.false_eq_true, if_false]
    exact ih (fun x hx => h x (by simp [hx]))

theorem strip_append (a b : List Char) :
    stripNonNumeric (a ++ b) = stripNonNumeric a ++ stripNonNumeric b := by
  simp [stripNonNumeric, List.filter_append]

/-- Reduction of OnTheMarket `parse_price` on a price text of the shape
"<currency><numeric-part> <freq>", for a numeric part whose `float` value
is known. -/
theorem otm_price_core (cur : Char) (numPart freqCs : List Char) (forSale : Bool)
    (q : ℚ)
    (hnum : ∀ c ∈ numPart, (c.isDigit || c == '.') = true)
    (hnumw : ∀ c ∈ numPart, c.isWhitespace = false)
    (hfloat : pyFloat numPart = .ok q)
    (hcur : (cur.isDigit || cur == '.') = false) (hcurw : cur.isWhitespace = false)
    (hfne : freqCs ≠ [])
    (hfq : ∀ c ∈ freqCs, (c.isDigit || c == '.') = false ∧ c.isWhitespace = false) :
    otm_parse_price (.vDict [("price",
        .vStr (String.mk (cur :: (numPart ++ ' ' :: freqCs)))),
      ("for-sale?", .vBool forSale)]) =
      .ok ⟨q, cur, if forSale then none else some (String.mk freqCs)⟩ := by
  have hwords : pyWords (cur :: (numPart ++ ' ' :: freqCs)) = [cur :: numPart, freqCs] := by
    have h0 := pyWords_two_words (cur :: numPart) freqCs
      (by
        intro c hc
        rcases List.mem_cons.mp hc with rfl | h
        · exact hcurw
        · exact hnumw c h)
      (fun c hc => (hfq c hc).2) (by simp) hfne
    rw [List.cons_append] at h0
    exact h0
  have hstrip1 : stripNonNumeric (cur :: numPart) = numPart := by
    rw [strip_cons_neg cur numPart hcur, strip_all_pos numPart hnum]
  have hstripall : stripNonNumeric (cur :: (numPart ++ ' ' :: freqCs)) = numPart := by
    rw [strip_cons_neg cur _ hcur, strip_append, strip_all_pos numPart hnum,
      strip_cons_neg ' ' freqCs (by decide),
      strip_all_neg freqCs (fun c hc => (hfq c hc).1)]
    simp
  have hget1 : dictGet (.vDict [("price",
      .vStr (String.mk (cur :: (numPart ++ ' ' :: freqCs)))),
      ("for-sale?", .vBool forSale)]) "price" =
      .ok (.vStr (String.mk (cur :: (numPart ++ ' ' :: freqCs)))) := rfl
  have hget2 : dictGet (.vDict [("price",
      .vStr (String.mk (cur :: (numPart ++ ' ' :: freqCs)))),
      ("for-sale?", .vBool forSale)]) "for-sale?" = .ok (.vBool forSale) := rfl
  cases forSale
  · simp only [otm_parse_price, hget1, hget2, except_bind_ok, except_pure,
      pyTruthy, toList_mk, hwords, hstripall, hstrip1, hfloat, Bool.false_eq_true,
      if_false]
  · simp only [otm_parse_price, hget1, hget2, except_bind_ok, except_pure,
      pyTruthy, toList_mk, hwords, hstripall, hstrip1, hfloat, if_true]

/-! ### Per-row failure isolation -/

theorem otm_collect_all_ok (searchUrl : String) (rows : List PyVal)
    (h : ∀ r ∈ rows, ∃ s, dictGet r "property-link" = .ok (.vStr s)) :
    ∃ us, otm_collect searchUrl rows = .ok (us, []) ∧ us.length = rows.length := by
  induction rows with
  | nil => exact ⟨[], rfl, rfl⟩
  | cons r rest ih =>
    obtain ⟨s, hs⟩ := h r (by simp)
    obtain ⟨us, hus, hlen⟩ := ih (fun x hx => h x (by simp [hx]))
    refine ⟨("https://www.onthemarket.com" ++ s) :: us, ?_, by simp [hlen]⟩
    simp only [otm_collect, hs, hus]
    rfl

theorem otm_collect_one_bad (searchUrl : String) (pre post : List PyVal) (bad : PyVal)
    (hpre : ∀ r ∈ pre, ∃ s, dictGet r "property-link" = .ok (.vStr s))
    (hpost : ∀ r ∈ post, ∃ s, dictGet r "property-link" = .ok (.vStr s))
    (hbad : dictGet bad "property-link" = .error (.keyError "property-link")) :
    ∃ us, otm_collect searchUrl (pre ++ bad :: post) = .ok (us, [("KeyError", searchUrl)]) ∧
      us.length = pre.length + post.length := by
  induction pre with
  | nil =>
    obtain ⟨us, hus, hlen⟩ := otm_collect_all_ok searchUrl post hpost
    refine ⟨us, ?_, by simp [hlen]⟩
    simp only [List.nil_append, otm_collect, hbad, hus]
    rfl
  | cons r rest ih =>
    obtain ⟨s, hs⟩ := hpre r (by simp)
    obtain ⟨us, hus, hlen⟩ := ih (fun x hx => hpre x (by simp [hx]))
    refine ⟨("https://www.onthemarket.com" ++ s) :: us, ?_, by simp [hlen]; omega⟩
    simp only [List.cons_append, otm_collect, hs, List.append_eq, hus]
    rfl

/-- Claim C1 (amended): in the OnTheMarket links normalizer, a page of `N ≥ 2`
rows of which exactly one lacks the `property-link` key yields `N - 1`
collected urls and exactly one logged (KeyError, search url) entry; the bad
row is skipped without aborting the others. -/
theorem otm_row_failure_isolated (searchUrl : String) (pre post : List PyVal)
    (bad : PyVal)
    (hpre : ∀ r ∈ pre, ∃ s, dictGet r "property-link" = .ok (.vStr s))
    (hpost : ∀ r ∈ post, ∃ s, dictGet r "property-link" = .ok (.vStr s))
    (hbad : dictGet bad "property-link" = .error (.keyError "property-link"))
    (hlen : 2 ≤ (pre ++ bad :: post).length) :
    (otm_process_rows searchUrl (pre ++ bad :: post)).map
        (fun p => (p.1.length, p.2)) =
      .ok ((pre ++ bad :: post).length - 1, [("KeyError", searchUrl)]) := by
  obtain ⟨us, hus, hlens⟩ := otm_collect_one_bad searchUrl pre post bad hpre hpost hbad
  unfold otm_process_rows
  rw [if_pos (by omega)]
  rw [if_neg (by
    intro hand
    omega)]
  have hl2 : us.length = (pre ++ bad :: post).length - 1 := by
    simp only [List.length_append, List.length_cons]
    omega
  rw [hus, ← hl2]
  rfl

/-- Witness for C1: a concrete 2-row page with one malformed row yields one
url and one log entry. -/
theorem otm_row_failure_isolated_witness :
    (otm_process_rows "u" ([.vDict [("property-link", .vStr "/details/1")]] ++
        PyVal.vDict [] :: [])).map (fun p => (p.1.length, p.2)) =
      .ok (([PyVal.vDict [("property-link", .vStr "/details/1")]] ++
        PyVal.vDict [] :: []).length - 1, [("KeyError", "u")]) :=
  otm_row_failure_isolated "u" [.vDict [("property-link", .vStr "/details/1")]]
    [] (.vDict [])
    (fun r hr => by
      rw [List.mem_singleton] at hr
      subst hr
      exact ⟨"/details/1", rfl⟩)
    (fun r hr => by simp at hr)
    rfl
    (by simp)

/-- Claim C1 (counterexample): the Rightmove normalizer has no per-row
handler: a 2-row page whose second row lacks `id` aborts the whole page
parse with a KeyError instead of emitting the one good record. -/
theorem rm_row_failure_aborts_page :
    rm_parse_rows [rmGoodRow, rmBadRow] = .error (.keyError "id") := rfl

/-! ### Rightmove pagination arithmetic -/

/-- Claim C3 (counterexample): with a first page reporting a total count of
10, the Rightmove walk issues two page requests, not one. -/
theorem rm_count10_not_one_request :
    (rmWalkKind rmOracle10 "E1" "property-for-sale").map
        (fun st => st.fetched.length) = .ok 2 ∧ ((2 : Nat) == 1) = false :=
  ⟨rfl, rfl⟩

/-- Claim C3 (amended): a reported count of 10 makes `get_max_page` return
24 (one 24-sized page by ceiling division), and the walk's inclusive loop
bound then requests page indexes 0 and 24: exactly two requests. -/
theorem rm_count10_two_requests :
    rmLastPage 10 = 24 ∧
    (rmWalkKind rmOracle10 "E1" "property-for-sale").map (fun st => st.fetched) =
      .ok [("property-for-sale", 0), ("property-for-sale", 24)] :=
  ⟨rfl, rfl⟩

/-! ### OnTheMarket pagination -/

/-- Claim C4 (code divergence): with non-empty rows on pages 0 and 1, the
walk fetches only page 0 of each search type (the loop body ends in an
unconditional break) and returns only page 0's urls; page 1's row is never
requested. -/
theorem otm_walk_never_advances :
    otm_get_zc_property_urls otmOracleC4 "E1" =
      .ok ⟨["https://www.onthemarket.com/details/11",
            "https://www.onthemarket.com/details/12"], [],
           [("for-sale", 0), ("to-rent", 0)]⟩ := rfl

/-! ### Price parsing -/

/-- Claim C5: for every raw price text "<currency><digits>[.<digits>] <freq>",
the OnTheMarket parser returns the digits read as a decimal, the first
character as currency, and (for rentals) the second token as frequency;
but the Zoopla parser raises a TypeError on every rental row with a valid
numeric price, because its frequency branch indexes the price string with
the string key. -/
theorem price_parsing_rule :
    (∀ (cur : Char) (intD fracD freqCs : List Char) (useFrac forSale : Bool),
      (∀ c ∈ intD, c.isDigit = true) → (∀ c ∈ fracD, c.isDigit = true) →
      intD ≠ [] → freqCs ≠ [] →
      cur.isDigit = false → (cur == '.') = false → cur.isWhitespace = false →
      (∀ c ∈ freqCs, c.isDigit = false ∧ (c == '.') = false ∧
        c.isWhitespace = false) →
      otm_parse_price (.vDict [("price", .vStr (String.mk
          (cur :: ((intD ++ (if useFrac then '.' :: fracD else [])) ++
            ' ' :: freqCs)))),
        ("for-sale?", .vBool forSale)]) =
        .ok ⟨decValue intD (if useFrac then fracD else []), cur,
          if forSale then none else some (String.mk freqCs)⟩) ∧
    zp_parse_price "£100 pcm" false = .error .typeError := by
  constructor
  · intro cur intD fracD freqCs useFrac forSale hi hfr hine hfne hcd hcdot hcw hfq
    have hnum : ∀ c ∈ intD ++ (if useFrac then '.' :: fracD else []),
        (c.isDigit || c == '.') = true := by
      intro c hc
      rcases List.mem_append.mp hc with h | h
      · simp [hi c h]
      · cases useFrac
        · simp at h
        · simp only [if_true] at h
          rcases List.mem_cons.mp h with rfl | h2
          · simp
          · simp [hfr c h2]
    have hnumw : ∀ c ∈ intD ++ (if useFrac then '.' :: fracD else []),
        c.isWhitespace = false := by
      intro c hc
      rcases List.mem_append.mp hc with h | h
      · exact digit_not_ws c (hi c h)
      · cases useFrac
        · simp at h
        · simp only [if_true] at h
          rcases List.mem_cons.mp h with rfl | h2
          · decide
          · exact digit_not_ws c (hfr c h2)
    have hfloat : pyFloat (intD ++ (if useFrac then '.' :: fracD else [])) =
        .ok (decValue intD (if useFrac then fracD else [])) := by
      cases useFrac
      · simp only [Bool.false_eq_true, if_false, List.append_nil]
        rw [pyFloat_digits intD hi hine, decValue_nil]
      · simp only [if_true]
        exact pyFloat_digits_frac intD fracD hi hfr (Or.inl hine)
    exact otm_price_core cur _ freqCs forSale _ hnum hnumw hfloat
      (by simp [hcd, hcdot]) hcw hfne
      (fun c hc => ⟨by simp [(hfq c hc).1, (hfq c hc).2.1], (hfq c hc).2.2⟩)
  · rfl

/-- Witness for C5: "£95 pw" as a rental parses to (95, '£', "pw"). -/
theorem price_parsing_rule_witness :
    otm_parse_price (.vDict [("price", .vStr (String.mk
        ('£' :: ((['9', '5'] ++ (if false then '.' :: ([] : List Char) else [])) ++
          ' ' :: ['p', 'w'])))),
      ("for-sale?", .vBool false)]) =
      .ok ⟨decValue ['9', '5'] (if false then [] else []), '£',
        if false then none else some (String.mk ['p', 'w'])⟩ :=
  price_parsing_rule.1 '£' ['9', '5'] [] ['p', 'w'] false false
    (by decide) (by decide) (by decide) (by decide) (by decide) (by decide)
    (by decide) (by decide)

/-- Claim C6 (code divergence): a Zoopla rental page of two fully well-formed
rows with numeric prices aborts entirely with the TypeError from
`parse_price`'s rent-frequency branch; no record is emitted and the second
row is never parsed. -/
theorem zp_rent_page_aborts : zp_parse_data [zpRentRow, zpRentRow] false =
    .error .typeError := rfl

/-! ### Structural parse errors and the Rightmove walk -/

/-- Claim C7 (code divergence): a missing result-count marker on outcode E1's
first page raises ValueError out of `get_property_data` (whose docstring
says it raises nothing); the error is not logged, aborts the region walk,
and propagates through the gather, so the whole source pipeline fails even
though outcode E2 alone completes cleanly. -/
theorem rm_structural_error_aborts_pipeline :
    rm_fetch_all_property_data rmOracleC7 ["E1", "E2"] = .error .valueError ∧
    rmGetPropertyData (rmOracleC7 "E2") "E2" =
      .ok ⟨[], [], [("property-for-sale", 0), ("property-to-rent", 0)]⟩ :=
  ⟨rfl, rfl⟩

theorem rmLoop_fetch_retry_fail (oracle : Nat → Except FetchExc RMBody)
    (stype url : String) (fuel pageNum lastPage : Nat) (st : RMWalkSt)
    (hle : pageNum ≤ lastPage) (hor : oracle pageNum = .error .retryError) :
    rmLoop oracle stype url (fuel + 1) pageNum lastPage st =
      .ok ⟨st.records, st.log ++ [("RetryError", url)],
        st.fetched ++ [(stype, pageNum)]⟩ := by
  simp only [rmLoop, hor]
  rw [if_neg (by omega)]

theorem rmLoop_page_advance (oracle : Nat → Except FetchExc RMBody)
    (stype url : String) (fuel pageNum lastPage lastPage1 : Nat) (st : RMWalkSt)
    (body : RMBody) (recs : List PropRec)
    (hle : pageNum ≤ lastPage) (hor : oracle pageNum = .ok body)
    (hmax : (if pageNum = 0 then rm_get_max_page body else .ok lastPage) =
      .ok lastPage1)
    (hnz : lastPage1 ≠ 0) (hparse : rm_parse_data body = .ok recs) :
    rmLoop oracle stype url (fuel + 1) pageNum lastPage st =
      rmLoop oracle stype url fuel (pageNum + 24) lastPage1
        ⟨st.records ++ recs, st.log, st.fetched ++ [(stype, pageNum)]⟩ := by
  simp only [rmLoop, hor, hmax, hparse]
  rw [if_neg (by omega), if_neg hnz]

/-- Claim C8 (amended): when page 0 parses to `recs` and the page-24 fetch
exhausts its retries, the walk ends early keeping all previously collected
records, and logs the error kind with the walk's initial (index 0) search
url. -/
theorem rm_walk_keeps_partial_results (outcode stype : String) (cnt : Nat)
    (rows : List PyVal) (recs : List PropRec)
    (hcnt : 24 ≤ rmLastPage cnt)
    (hrows : rm_parse_rows rows = .ok recs) :
    rmWalkKindSt
        (fun i => if i = 0 then .ok ⟨some cnt, some rows⟩ else .error .retryError)
        outcode stype ⟨[], [], []⟩ =
      .ok ⟨recs, [("RetryError", rmSearchUrl outcode stype 0)],
        [(stype, 0), (stype, 24)]⟩ := by
  unfold rmWalkKindSt
  rw [show (64 : Nat) = 63 + 1 from rfl]
  rw [rmLoop_page_advance _ stype _ 63 0 (42 * 24) (rmLastPage cnt) _
    ⟨some cnt, some rows⟩ recs (by omega) (by simp)
    (by simp [rm_get_max_page]) (by omega) (by simpa [rm_parse_data] using hrows)]
  rw [show (63 : Nat) = 62 + 1 from rfl]
  rw [rmLoop_fetch_retry_fail _ stype _ 62 (0 + 24) (rmLastPage cnt) _
    (by omega) (by norm_num)]
  simp

/-- Witness for C8 (amended): count 30 on page 0 with no rows, retries
exhausted at page 24: empty partial results kept, one log entry. -/
theorem rm_walk_keeps_partial_results_witness :
    rmWalkKindSt
        (fun i => if i = 0 then .ok ⟨some 30, some []⟩ else .error .retryError)
        "E1" "property-for-sale" ⟨[], [], []⟩ =
      .ok ⟨[], [("RetryError", rmSearchUrl "E1" "property-for-sale" 0)],
        [("property-for-sale", 0), ("property-for-sale", 24)]⟩ :=
  rm_walk_keeps_partial_results "E1" "property-for-sale" 30 [] []
    (by decide) rfl

/-- Claim C8 (counterexample): when retries are exhausted at page index 24,
the logged url is the walk's initial search url (index 0), which is not the
url of the failing request (index 24): the failure is not logged with the
failing url. -/
theorem rm_walk_logs_initial_url :
    (rmWalkKind rmOracleC8 "E1" "property-for-sale").map
        (fun st => (st.records.length, st.log, st.fetched)) =
      .ok (1, [("RetryError", rmSearchUrl "E1" "property-for-sale" 0)],
        [("property-for-sale", 0), ("property-for-sale", 24)]) ∧
    (rmSearchUrl "E1" "property-for-sale" 0 ==
      rmRequestUrl "E1" "property-for-sale" 24) = false :=
  ⟨rfl, by decide⟩

/-! ### The admission gate -/

/-- Claim C9 (code divergence): the orchestrator acquires the semaphore
exactly once — around building the task generator — for any task list, in
particular for 100 tasks; no per-request acquisition exists. -/
theorem gate_acquired_once_for_100_tasks :
    (∀ urls : List String, semAcquireCount (sessionGateEvents urls) = 1) ∧
    semAcquireCount (sessionGateEvents urls100) = 1 ∧ urls100.length = 100 := by
  refine ⟨?_, rfl, rfl⟩
  intro urls
  simp [semAcquireCount, sessionGateEvents, List.countP_append, List.countP_map,
    List.countP_eq_zero, Function.comp]

/-! ### Retry exhaustion surfaces as None in the OnTheMarket data fetcher -/

theorem gatherM_all_ok {α : Type} (g : String → Except PyErr α) (xs : List String)
    (h : ∀ x ∈ xs, ∃ r, g x = .ok r) :
    ∃ l, gatherM (xs.map g) = .ok l ∧ l.length = xs.length := by
  induction xs with
  | nil => exact ⟨[], rfl, rfl⟩
  | cons x rest ih =>
    obtain ⟨r, hr⟩ := h x (by simp)
    obtain ⟨l, hl, hlen⟩ := ih (fun y hy => h y (by simp [hy]))
    exact ⟨r :: l, by simp [gatherM, hr, hl, Except.map], by simp [hlen]⟩

/-- Claim C10: a url whose fetch exhausts its retries contributes `None`
(not a record and not an empty dict) at its own position of the list
`fetch_all_property_data` returns, provided the other urls' fetches do not
raise. -/
theorem otm_retry_exhaustion_yields_none
    (oracle : String → Except FetchExc (Option PyVal)) (today : String)
    (pre post : List String) (u : String)
    (hu : oracle u = .error .retryError)
    (hpre : ∀ x ∈ pre, ∃ r, otm_pd_get (oracle x) today = .ok r)
    (hpost : ∀ x ∈ post, ∃ r, otm_pd_get (oracle x) today = .ok r) :
    (otm_pd_fetch_all oracle today (pre ++ u :: post)).map
        (fun l => l.get? pre.length) = .ok (some none) := by
  induction pre with
  | nil =>
    obtain ⟨l, hl, hlen⟩ :=
      gatherM_all_ok (fun x => otm_pd_get (oracle x) today) post hpost
    have hstep : otm_pd_get (oracle u) today = .ok none := by
      rw [hu]
      rfl
    simp only [otm_pd_fetch_all, List.nil_append, List.map_cons, gatherM, hstep, hl]
    rfl
  | cons x rest ih =>
    obtain ⟨r, hr⟩ := hpre x (by simp)
    have ih2 := ih (fun y hy => hpre y (by simp [hy]))
    rcases hg : gatherM ((rest ++ u :: post).map
        (fun y => otm_pd_get (oracle y) today)) with e | l2
    · rw [otm_pd_fetch_all, hg] at ih2
      simp [Except.map] at ih2
    · rw [otm_pd_fetch_all, hg] at ih2
      simp only [Except.map] at ih2
      simp only [otm_pd_fetch_all, List.cons_append, List.map_cons, gatherM, hr,
        List.append_eq, hg, Except.map, List.length_cons]
      simp only [Except.ok.injEq] at ih2 ⊢
      rw [List.get?_cons_succ]
      exact ih2

/-- Witness for C10: both fetches exhaust retries; position 1 of the result
list is None. -/
theorem otm_retry_exhaustion_yields_none_witness :
    (otm_pd_fetch_all (fun _ => .error .retryError) "2023-01-01"
        (["u1"] ++ "u2" :: [])).map (fun l => l.get? ["u1"].length) =
      .ok (some none) :=
  otm_retry_exhaustion_yields_none (fun _ => .error .retryError) "2023-01-01"
    ["u1"] [] "u2" rfl (fun x hx => ⟨none, rfl⟩) (fun x hx => by simp at hx)
